import Mathlib

/-!
Verification of the client-side line-readings and units-details fetch logic
(src/client/app/actions/lineReadings.ts and the units action file).

The TypeScript is embedded shallowly:
* Redux state becomes a Lean structure; dictionary lookups that may yield
  `undefined` become `Option`-valued functions.
* A thunk's execution is a pure function from its inputs (and an explicit
  network outcome) to a `ThunkRun`: the list of synchronously emitted events,
  the list of events emitted when the network call settles, and the final
  state of the returned promise.
* Events are dispatched Redux actions, outbound HTTP GETs, and a cache-write
  effect that only the external reducer could produce; this module's code
  must never emit the latter.
-/

/-- Modelled from the spec: `TimeInterval` (class not present in the source
fragment) is an opaque interval value; all the code here uses of it is its
canonical string form produced by `toString`, used as cache key and as the
`timeInterval` query parameter. -/
structure TimeInterval where
  canonical : String
deriving DecidableEq

def TimeInterval.toString (t : TimeInterval) : String := t.canonical

/-- Modelled from the spec: the per-ID reading payload (`LineReadings` in
`utils/types`, not present in the source fragment). Treated as opaque data
indexed by entity ID; this module only passes it through. -/
structure LineReadings where
  payload : List (Nat × List Int)
deriving DecidableEq

/-- A cache entry for one (entity ID, canonical interval string) pair:
`isFetching` marks an outstanding request; `readings`, when present, is the
resolved data merged in by the external reducer. -/
structure ReadingsLineEntry where
  isFetching : Bool
  readings : Option LineReadings

/-- One side of the line-readings cache: entity ID to (canonical interval
string to entry), with `undefined` at either level modelled as `none`. -/
def ReadingsCache := Nat → Option (String → Option ReadingsLineEntry)

/-- `state.readings.line`, holding `byMeterID` and `byGroupID`. -/
structure LineCacheState where
  byMeterID : ReadingsCache
  byGroupID : ReadingsCache

/-- `state.readings`. -/
structure ReadingsState where
  line : LineCacheState

/-- `state.graph`: the externally owned selection sets. -/
structure GraphState where
  selectedMeters : List Nat
  selectedGroups : List Nat

/-- The slice of the Redux state read by this module. -/
structure State where
  readings : ReadingsState
  graph : GraphState

/-- The four line-readings Redux actions of `LineReadingsAction`. -/
inductive LineReadingsAction where
  | requestMeterLine (meterIDs : List Nat) (timeInterval : TimeInterval)
  | requestGroupLine (groupIDs : List Nat) (timeInterval : TimeInterval)
  | receiveMeterLine (meterIDs : List Nat) (timeInterval : TimeInterval) (readings : LineReadings)
  | receiveGroupLine (groupIDs : List Nat) (timeInterval : TimeInterval) (readings : LineReadings)

/-- Observable effects of running the line-readings thunks. `cacheWrite` is
the mutation effect reserved to the external reducer/store: the theorems
show the thunks never emit it. -/
inductive Event where
  | dispatched (action : LineReadingsAction)
  | networkGet (url : String) (params : List (String × String))
  | cacheWrite (newLine : LineCacheState)

/-- Errors from the HTTP layer, uninterpreted. -/
def NetworkError := String

/-- The settled state of a promise. -/
inductive PromiseState where
  | resolved
  | rejected (e : NetworkError)

/-- `Promise.all`: resolved when every constituent resolved, otherwise
rejected with the first rejection. -/
def promiseAll (ps : List PromiseState) : PromiseState :=
  match ps.filterMap (fun p => match p with
    | .rejected e => some e
    | .resolved => none) with
  | [] => .resolved
  | e :: _ => .rejected e

/-- The run of one thunk: events emitted synchronously, events emitted once
its network call settles, and the promise it returns. -/
structure ThunkRun (ε : Type) where
  syncEvents : List ε
  asyncEvents : List ε
  result : PromiseState

def ThunkRun.allEvents (r : ThunkRun ε) : List ε :=
  r.syncEvents ++ r.asyncEvents

/-- `shouldFetchGroupLineReadings(state, groupID, timeInterval)`. -/
def shouldFetchGroupLineReadings (state : State) (groupID : Nat)
    (timeInterval : TimeInterval) : Bool :=
  let timeIntervalIndex := timeInterval.toString
  match state.readings.line.byGroupID groupID with
  | none => true
  | some readingsForID =>
    match readingsForID timeIntervalIndex with
    | none => true
    | some readingsForTimeInterval => !readingsForTimeInterval.isFetching

/-- `shouldFetchMeterLineReadings(state, meterID, timeInterval)`. -/
def shouldFetchMeterLineReadings (state : State) (meterID : Nat)
    (timeInterval : TimeInterval) : Bool :=
  let timeIntervalIndex := timeInterval.toString
  match state.readings.line.byMeterID meterID with
  | none => true
  | some readingsForID =>
    match readingsForID timeIntervalIndex with
    | none => true
    | some readingsForTimeInterval => !readingsForTimeInterval.isFetching

/-- `requestMeterLineReadings(meterIDs, timeInterval)`. -/
def requestMeterLineReadings (meterIDs : List Nat)
    (timeInterval : TimeInterval) : LineReadingsAction :=
  .requestMeterLine meterIDs timeInterval

/-- `receiveMeterLineReadings(meterIDs, timeInterval, readings)`. -/
def receiveMeterLineReadings (meterIDs : List Nat) (timeInterval : TimeInterval)
    (readings : LineReadings) : LineReadingsAction :=
  .receiveMeterLine meterIDs timeInterval readings

/-- `requestGroupLineReadings(groupIDs, timeInterval)`. -/
def requestGroupLineReadings (groupIDs : List Nat)
    (timeInterval : TimeInterval) : LineReadingsAction :=
  .requestGroupLine groupIDs timeInterval

/-- `receiveGroupLineReadings(groupIDs, timeInterval, readings)`. -/
def receiveGroupLineReadings (groupIDs : List Nat) (timeInterval : TimeInterval)
    (readings : LineReadings) : LineReadingsAction :=
  .receiveGroupLine groupIDs timeInterval readings

/-- `meterIDs.join(',')`: the comma-separated ID list the api expects. -/
def stringifyIDs (ids : List Nat) : String :=
  String.intercalate "," (ids.map toString)

/-- `fetchMeterLineReadings(meterIDs, timeInterval)` run against a network
`outcome`: dispatch the request action, issue the GET, and on resolution
dispatch the receive action; a rejection is not caught. -/
def fetchMeterLineReadings (meterIDs : List Nat) (timeInterval : TimeInterval)
    (outcome : Except NetworkError LineReadings) : ThunkRun Event :=
  let stringifiedIDs := stringifyIDs meterIDs
  { syncEvents :=
      [Event.dispatched (requestMeterLineReadings meterIDs timeInterval),
       Event.networkGet ("/api/readings/line/meters/" ++ stringifiedIDs)
         [("timeInterval", timeInterval.toString)]]
    asyncEvents :=
      match outcome with
      | .ok data =>
        [Event.dispatched (receiveMeterLineReadings meterIDs timeInterval data)]
      | .error _ => []
    result :=
      match outcome with
      | .ok _ => .resolved
      | .error e => .rejected e }

/-- `fetchGroupLineReadings(groupIDs, timeInterval)` run against a network
`outcome`. -/
def fetchGroupLineReadings (groupIDs : List Nat) (timeInterval : TimeInterval)
    (outcome : Except NetworkError LineReadings) : ThunkRun Event :=
  let stringifiedIDs := stringifyIDs groupIDs
  { syncEvents :=
      [Event.dispatched (requestGroupLineReadings groupIDs timeInterval),
       Event.networkGet ("/api/readings/line/groups/" ++ stringifiedIDs)
         [("timeInterval", timeInterval.toString)]]
    asyncEvents :=
      match outcome with
      | .ok data =>
        [Event.dispatched (receiveGroupLineReadings groupIDs timeInterval data)]
      | .error _ => []
    result :=
      match outcome with
      | .ok _ => .resolved
      | .error e => .rejected e }

/-- `fetchNeededLineReadings(timeInterval)` run against the state returned by
`getState()` and the outcomes of the (up to two) network calls. The filters
and the emptiness guards mirror the source; `Promise.all` combines the
issued promises. -/
def fetchNeededLineReadings (timeInterval : TimeInterval) (state : State)
    (meterOutcome groupOutcome : Except NetworkError LineReadings) :
    ThunkRun Event :=
  let meterIDsToFetchForLine := state.graph.selectedMeters.filter
    (fun id => shouldFetchMeterLineReadings state id timeInterval)
  let groupIDsToFetchForLine := state.graph.selectedGroups.filter
    (fun id => shouldFetchGroupLineReadings state id timeInterval)
  let meterRuns : List (ThunkRun Event) :=
    if 0 < meterIDsToFetchForLine.length then
      [fetchMeterLineReadings meterIDsToFetchForLine timeInterval meterOutcome]
    else []
  let groupRuns : List (ThunkRun Event) :=
    if 0 < groupIDsToFetchForLine.length then
      [fetchGroupLineReadings groupIDsToFetchForLine timeInterval groupOutcome]
    else []
  let runs := meterRuns ++ groupRuns
  { syncEvents := (runs.map ThunkRun.syncEvents).flatten
    asyncEvents := (runs.map ThunkRun.asyncEvents).flatten
    result := promiseAll (runs.map ThunkRun.result) }

/-- Cache lookup for one (ID, canonical interval string) pair, as performed
by both predicates: two indexing steps, `undefined` propagating. -/
def lineCacheLookup (cache : ReadingsCache) (id : Nat) (key : String) :
    Option ReadingsLineEntry :=
  match cache id with
  | none => none
  | some readingsForID => readingsForID key

/-- True on outbound HTTP GET events. -/
def isNetworkGet : Event → Bool
  | .networkGet _ _ => true
  | _ => false

/-- True on dispatched-notification events. -/
def isDispatched : Event → Bool
  | .dispatched _ => true
  | _ => false

/-- True on the cache-mutation effect reserved to the external reducer. -/
def writesCache : Event → Bool
  | .cacheWrite _ => true
  | _ => false

/-- The outbound network calls in a run, in order. -/
def networkEvents (r : ThunkRun Event) : List Event :=
  r.allEvents.filter isNetworkGet

/-- The dispatched actions in a run, in order. -/
def dispatchedActions (r : ThunkRun Event) : List LineReadingsAction :=
  r.allEvents.filterMap (fun e => match e with
    | .dispatched a => some a
    | _ => none)

/-- Modelled from the spec: a unit descriptor record (`UnitData` in
`types/redux/unit`, not present in the source fragment); opaque pass-through
data for this module. -/
structure UnitData where
  descriptor : String
deriving DecidableEq

/-- The two units Redux actions. -/
inductive UnitAction where
  | requestUnitsDetails
  | receiveUnitsDetails (data : List UnitData)
deriving DecidableEq

/-- Observable effects of the units thunk: dispatched actions and the single
unparameterized `unitsApi.details()` call. -/
inductive UnitEvent where
  | dispatched (action : UnitAction)
  | apiDetailsCall
deriving DecidableEq

/-- `requestUnitsDetails()`. -/
def requestUnitsDetails : UnitAction := .requestUnitsDetails

/-- `receiveUnitsDetails(data)`. -/
def receiveUnitsDetails (data : List UnitData) : UnitAction :=
  .receiveUnitsDetails data

/-- `fetchUnitsDetails()` run against a network `outcome`: dispatch the
request action, await the single `unitsApi.details()` call, and on
resolution dispatch the receive action with the full returned list; a
rejection rejects the thunk's promise. -/
def fetchUnitsDetails (outcome : Except NetworkError (List UnitData)) :
    ThunkRun UnitEvent :=
  { syncEvents := [UnitEvent.dispatched requestUnitsDetails,
                   UnitEvent.apiDetailsCall]
    asyncEvents :=
      match outcome with
      | .ok unitsDetails =>
        [UnitEvent.dispatched (receiveUnitsDetails unitsDetails)]
      | .error _ => []
    result :=
      match outcome with
      | .ok _ => .resolved
      | .error e => .rejected e }

/-- True on the unparameterized `unitsApi.details()` call event. -/
def isApiDetailsCall : UnitEvent → Bool
  | .apiDetailsCall => true
  | _ => false

/- Concrete fixtures used by counterexamples and witnesses. -/

/-- A resolved cache entry: not fetching, data present. -/
def exEntryResolved : ReadingsLineEntry :=
  { isFetching := false, readings := some { payload := [] } }

/-- A concrete time interval whose canonical string is `all`. -/
def exTI : TimeInterval := { canonical := "all" }

/-- An interval-keyed map holding the resolved entry at key `all`. -/
def exIntervalMap : String → Option ReadingsLineEntry :=
  fun key => if key = "all" then some exEntryResolved else none

/-- A cache with the resolved entry for ID 1 only. -/
def exCacheWithResolved : ReadingsCache :=
  fun id => if id = 1 then some exIntervalMap else none

/-- The empty cache side: no entry for any ID. -/
def emptyCache : ReadingsCache := fun _ => none

/-- State: meter 1 selected, its readings for `exTI` cached and resolved. -/
def exStateResolved : State :=
  { readings := { line := { byMeterID := exCacheWithResolved, byGroupID := emptyCache } }
    graph := { selectedMeters := [1], selectedGroups := [] } }

/-- State with empty caches and empty selection sets. -/
def emptyState : State :=
  { readings := { line := { byMeterID := emptyCache, byGroupID := emptyCache } }
    graph := { selectedMeters := [], selectedGroups := [] } }

/-- A concrete readings payload. -/
def exReadings : LineReadings := { payload := [] }

/-- A concrete network error. -/
def exErr : NetworkError := "network failure"

/-- A state whose meter cache equals the group cache of `exStateGroupSide`. -/
def exStateMeterSide : State :=
  { readings := { line := { byMeterID := exCacheWithResolved, byGroupID := emptyCache } }
    graph := { selectedMeters := [1, 2], selectedGroups := [] } }

/-- A state whose group cache equals the meter cache of `exStateMeterSide`. -/
def exStateGroupSide : State :=
  { readings := { line := { byMeterID := emptyCache, byGroupID := exCacheWithResolved } }
    graph := { selectedMeters := [], selectedGroups := [3] } }

/-- The body shared by both predicates, characterized: it is `false` exactly
when the two-step lookup finds an entry with `isFetching = true`. -/
theorem lookup_isFetching_spec (cache : ReadingsCache) (id : Nat) (key : String) :
    ((match cache id with
      | none => true
      | some readingsForID =>
        match readingsForID key with
        | none => true
        | some readingsForTimeInterval => !readingsForTimeInterval.isFetching) = false ↔
      ∃ entry, lineCacheLookup cache id key = some entry ∧ entry.isFetching = true) := by
  rcases hm : cache id with _ | f
  · simp [lineCacheLookup, hm]
  · rcases hf : f key with _ | e
    · simp [lineCacheLookup, hm, hf]
    · cases he : e.isFetching <;> simp [lineCacheLookup, hm, hf, he]

/-- Claim C2: each cache-lookup predicate returns `false` iff an entry exists
for the (ID, canonical interval string) pair with `isFetching = true`; in
particular, with no entry for the pair it returns `true`. -/
theorem c2_shouldFetch_false_iff_entry_inflight :
    ∀ (s : State) (id : Nat) (ti : TimeInterval),
      (shouldFetchMeterLineReadings s id ti = false ↔
        ∃ entry, lineCacheLookup s.readings.line.byMeterID id ti.toString = some entry ∧
          entry.isFetching = true) ∧
      (shouldFetchGroupLineReadings s id ti = false ↔
        ∃ entry, lineCacheLookup s.readings.line.byGroupID id ti.toString = some entry ∧
          entry.isFetching = true) ∧
      (lineCacheLookup s.readings.line.byMeterID id ti.toString = none →
        shouldFetchMeterLineReadings s id ti = true) ∧
      (lineCacheLookup s.readings.line.byGroupID id ti.toString = none →
        shouldFetchGroupLineReadings s id ti = true) := by
  intro s id ti
  have hM := lookup_isFetching_spec s.readings.line.byMeterID id ti.toString
  have hG := lookup_isFetching_spec s.readings.line.byGroupID id ti.toString
  refine ⟨hM, hG, ?_, ?_⟩
  · intro h
    cases hb : shouldFetchMeterLineReadings s id ti with
    | true => rfl
    | false =>
      obtain ⟨entry, hentry, _⟩ := hM.mp hb
      rw [h] at hentry
      exact Option.noConfusion hentry
  · intro h
    cases hb : shouldFetchGroupLineReadings s id ti with
    | true => rfl
    | false =>
      obtain ⟨entry, hentry, _⟩ := hG.mp hb
      rw [h] at hentry
      exact Option.noConfusion hentry

/-- Witness for C2 at a concrete input: the empty cache has no entry for
meter 0 (and no entry for group 0) at `exTI`, and the predicates report a
fetch is needed. -/
theorem c2_shouldFetch_false_iff_entry_inflight_witness :
    shouldFetchMeterLineReadings emptyState 0 exTI = true ∧
    shouldFetchGroupLineReadings emptyState 0 exTI = true :=
  ⟨((c2_shouldFetch_false_iff_entry_inflight emptyState 0 exTI).2.2.1 rfl),
   ((c2_shouldFetch_false_iff_entry_inflight emptyState 0 exTI).2.2.2 rfl)⟩

/-- Claim C1 is refuted by the code: in `exStateResolved`, meter 1 has a
cached resolved entry (`isFetching = false`) for interval `exTI`, yet
`shouldFetchMeterLineReadings` reports it as needing a fetch and the
orchestrator includes ID 1 in the outbound batched meter request. -/
theorem c1_resolved_entry_is_refetched :
    lineCacheLookup exStateResolved.readings.line.byMeterID 1 exTI.toString =
      some exEntryResolved ∧
    exEntryResolved.isFetching = false ∧
    shouldFetchMeterLineReadings exStateResolved 1 exTI = true ∧
    (fetchNeededLineReadings exTI exStateResolved (Except.ok exReadings)
      (Except.ok exReadings)).syncEvents =
      [Event.dispatched (requestMeterLineReadings [1] exTI),
       Event.networkGet "/api/readings/line/meters/1" [("timeInterval", "all")]] :=
  ⟨rfl, rfl, rfl, rfl⟩

/-- Claim C10: the meter and group predicates compute the same function of
their respective cache slices. -/
theorem c10_meter_group_predicates_agree (s1 s2 : State) (id : Nat)
    (ti : TimeInterval)
    (h : s1.readings.line.byMeterID = s2.readings.line.byGroupID) :
    shouldFetchMeterLineReadings s1 id ti = shouldFetchGroupLineReadings s2 id ti := by
  simp only [shouldFetchMeterLineReadings, shouldFetchGroupLineReadings, h]

/-- Witness for C10 at concrete states sharing the cache value
`exCacheWithResolved` across the two slices. -/
theorem c10_meter_group_predicates_agree_witness :
    shouldFetchMeterLineReadings exStateMeterSide 1 exTI =
      shouldFetchGroupLineReadings exStateGroupSide 1 exTI :=
  c10_meter_group_predicates_agree exStateMeterSide exStateGroupSide 1 exTI rfl

/-- Claim C4: for every batch and every network outcome, the run's trace is
the request dispatch (tagged with exactly the batch's IDs and interval),
then the outbound GET, then whatever completion events follow — so the
request notification is emitted synchronously before the network call is
issued and before it completes, on success and on failure alike. -/
theorem c4_request_dispatched_before_network_call :
    ∀ (ids : List Nat) (ti : TimeInterval) (o : Except NetworkError LineReadings),
      (fetchMeterLineReadings ids ti o).syncEvents =
        [Event.dispatched (requestMeterLineReadings ids ti),
         Event.networkGet ("/api/readings/line/meters/" ++ stringifyIDs ids)
           [("timeInterval", ti.toString)]] ∧
      (fetchMeterLineReadings ids ti o).allEvents =
        Event.dispatched (requestMeterLineReadings ids ti) ::
        Event.networkGet ("/api/readings/line/meters/" ++ stringifyIDs ids)
          [("timeInterval", ti.toString)] ::
        (fetchMeterLineReadings ids ti o).asyncEvents ∧
      (fetchGroupLineReadings ids ti o).syncEvents =
        [Event.dispatched (requestGroupLineReadings ids ti),
         Event.networkGet ("/api/readings/line/groups/" ++ stringifyIDs ids)
           [("timeInterval", ti.toString)]] ∧
      (fetchGroupLineReadings ids ti o).allEvents =
        Event.dispatched (requestGroupLineReadings ids ti) ::
        Event.networkGet ("/api/readings/line/groups/" ++ stringifyIDs ids)
          [("timeInterval", ti.toString)] ::
        (fetchGroupLineReadings ids ti o).asyncEvents :=
  fun _ _ _ => ⟨rfl, rfl, rfl, rfl⟩

/-- Claim C5: when a batch's call resolves, the receive notification carries
exactly the IDs and interval of the request notification that opened the
batch, together with the response payload. -/
theorem c5_receive_matches_request :
    ∀ (ids : List Nat) (ti : TimeInterval) (data : LineReadings),
      (fetchMeterLineReadings ids ti (Except.ok data)).syncEvents.head? =
        some (Event.dispatched (requestMeterLineReadings ids ti)) ∧
      (fetchMeterLineReadings ids ti (Except.ok data)).asyncEvents =
        [Event.dispatched (receiveMeterLineReadings ids ti data)] ∧
      (fetchGroupLineReadings ids ti (Except.ok data)).syncEvents.head? =
        some (Event.dispatched (requestGroupLineReadings ids ti)) ∧
      (fetchGroupLineReadings ids ti (Except.ok data)).asyncEvents =
        [Event.dispatched (receiveGroupLineReadings ids ti data)] :=
  fun _ _ _ => ⟨rfl, rfl, rfl, rfl⟩

/-- Claim C8: `fetchUnitsDetails`, for every outcome and with no precondition
on any cached state, synchronously dispatches the request action and issues
exactly one unparameterized api call; on success it dispatches the receive
action carrying the full returned descriptor list. -/
theorem c8_fetchUnitsDetails_contract :
    ∀ (o : Except NetworkError (List UnitData)) (d : List UnitData),
      (fetchUnitsDetails o).syncEvents =
        [UnitEvent.dispatched requestUnitsDetails, UnitEvent.apiDetailsCall] ∧
      ((fetchUnitsDetails o).allEvents.filter isApiDetailsCall).length = 1 ∧
      (fetchUnitsDetails (Except.ok d)).asyncEvents =
        [UnitEvent.dispatched (receiveUnitsDetails d)] ∧
      (fetchUnitsDetails (Except.ok d)).result = PromiseState.resolved := by
  intro o d
  refine ⟨rfl, ?_, rfl, rfl⟩
  cases o <;> rfl

/-- A meter batch run performs exactly one network call, whatever the
outcome: the batched GET with comma-joined IDs and the interval parameter. -/
theorem networkEvents_fetchMeterLineReadings (ids : List Nat)
    (ti : TimeInterval) (o : Except NetworkError LineReadings) :
    networkEvents (fetchMeterLineReadings ids ti o) =
      [Event.networkGet ("/api/readings/line/meters/" ++ stringifyIDs ids)
        [("timeInterval", ti.toString)]] := by
  cases o <;> rfl

/-- A group batch run performs exactly one network call, whatever the
outcome. -/
theorem networkEvents_fetchGroupLineReadings (ids : List Nat)
    (ti : TimeInterval) (o : Except NetworkError LineReadings) :
    networkEvents (fetchGroupLineReadings ids ti o) =
      [Event.networkGet ("/api/readings/line/groups/" ++ stringifyIDs ids)
        [("timeInterval", ti.toString)]] := by
  cases o <;> rfl

/-- Claim C3: an orchestrator run's outbound calls are exactly one batched
meter GET (comma-joined IDs, canonical interval as `timeInterval` query
parameter) when the meter needs-fetch subset is non-empty, and one batched
group GET likewise — hence at most two calls, never one per ID and none for
an empty subset. -/
theorem c3_at_most_two_batched_calls :
    ∀ (ti : TimeInterval) (s : State) (mo go : Except NetworkError LineReadings),
      networkEvents (fetchNeededLineReadings ti s mo go) =
        (if 0 < (s.graph.selectedMeters.filter
            (fun id => shouldFetchMeterLineReadings s id ti)).length then
          [Event.networkGet ("/api/readings/line/meters/" ++
            stringifyIDs (s.graph.selectedMeters.filter
              (fun id => shouldFetchMeterLineReadings s id ti)))
            [("timeInterval", ti.toString)]]
        else []) ++
        (if 0 < (s.graph.selectedGroups.filter
            (fun id => shouldFetchGroupLineReadings s id ti)).length then
          [Event.networkGet ("/api/readings/line/groups/" ++
            stringifyIDs (s.graph.selectedGroups.filter
              (fun id => shouldFetchGroupLineReadings s id ti)))
            [("timeInterval", ti.toString)]]
        else []) ∧
      (networkEvents (fetchNeededLineReadings ti s mo go)).length ≤ 2 := by
  intro ti s mo go
  have hmain : networkEvents (fetchNeededLineReadings ti s mo go) =
      (if 0 < (s.graph.selectedMeters.filter
          (fun id => shouldFetchMeterLineReadings s id ti)).length then
        [Event.networkGet ("/api/readings/line/meters/" ++
          stringifyIDs (s.graph.selectedMeters.filter
            (fun id => shouldFetchMeterLineReadings s id ti)))
          [("timeInterval", ti.toString)]]
      else []) ++
      (if 0 < (s.graph.selectedGroups.filter
          (fun id => shouldFetchGroupLineReadings s id ti)).length then
        [Event.networkGet ("/api/readings/line/groups/" ++
          stringifyIDs (s.graph.selectedGroups.filter
            (fun id => shouldFetchGroupLineReadings s id ti)))
          [("timeInterval", ti.toString)]]
      else []) := by
    by_cases hm : 0 < (s.graph.selectedMeters.filter
        (fun id => shouldFetchMeterLineReadings s id ti)).length <;>
    by_cases hg : 0 < (s.graph.selectedGroups.filter
        (fun id => shouldFetchGroupLineReadings s id ti)).length <;>
    cases mo <;> cases go <;>
    simp [fetchNeededLineReadings, networkEvents, ThunkRun.allEvents,
      fetchMeterLineReadings, fetchGroupLineReadings, isNetworkGet, hm, hg]
  refine ⟨hmain, ?_⟩
  rw [hmain]
  split_ifs <;> simp

/-- Claim C6: when no selected meter and no selected group needs fetching
(in particular when both selection sets are empty), the orchestrator emits
no events, issues no network call, and its combined promise is resolved
immediately. -/
theorem c6_no_needed_ids_resolves_immediately :
    ∀ (ti : TimeInterval) (s : State) (mo go : Except NetworkError LineReadings),
      s.graph.selectedMeters.filter (fun id => shouldFetchMeterLineReadings s id ti) = [] →
      s.graph.selectedGroups.filter (fun id => shouldFetchGroupLineReadings s id ti) = [] →
      (fetchNeededLineReadings ti s mo go).syncEvents = [] ∧
      (fetchNeededLineReadings ti s mo go).asyncEvents = [] ∧
      (fetchNeededLineReadings ti s mo go).result = PromiseState.resolved := by
  intro ti s mo go hm hg
  refine ⟨?_, ?_, ?_⟩ <;>
  simp [fetchNeededLineReadings, hm, hg, promiseAll]

/-- Witness for C6: at `emptyState` (both selection sets empty) nothing is
emitted and the combined promise resolves. -/
theorem c6_no_needed_ids_resolves_immediately_witness :
    (fetchNeededLineReadings exTI emptyState (Except.ok exReadings)
      (Except.ok exReadings)).syncEvents = [] ∧
    (fetchNeededLineReadings exTI emptyState (Except.ok exReadings)
      (Except.ok exReadings)).asyncEvents = [] ∧
    (fetchNeededLineReadings exTI emptyState (Except.ok exReadings)
      (Except.ok exReadings)).result = PromiseState.resolved :=
  c6_no_needed_ids_resolves_immediately exTI emptyState (Except.ok exReadings)
    (Except.ok exReadings) rfl rfl

/-- Claim C7: a rejected network call is not caught locally: the batch's
promise rejects with the error, no receive notification is dispatched for
the batch (its only dispatched action is the request), and when the meter
needs-fetch subset is non-empty the orchestrator's combined promise rejects
as well — no reset or rollback notification of any kind is emitted. -/
theorem c7_rejection_not_caught :
    ∀ (ids : List Nat) (ti : TimeInterval) (e : NetworkError) (s : State)
      (go : Except NetworkError LineReadings),
      0 < (s.graph.selectedMeters.filter
        (fun id => shouldFetchMeterLineReadings s id ti)).length →
      (fetchMeterLineReadings ids ti (Except.error e)).result = PromiseState.rejected e ∧
      (fetchMeterLineReadings ids ti (Except.error e)).asyncEvents = [] ∧
      dispatchedActions (fetchMeterLineReadings ids ti (Except.error e)) =
        [requestMeterLineReadings ids ti] ∧
      (fetchGroupLineReadings ids ti (Except.error e)).result = PromiseState.rejected e ∧
      (fetchGroupLineReadings ids ti (Except.error e)).asyncEvents = [] ∧
      dispatchedActions (fetchGroupLineReadings ids ti (Except.error e)) =
        [requestGroupLineReadings ids ti] ∧
      (fetchNeededLineReadings ti s (Except.error e) go).result = PromiseState.rejected e := by
  intro ids ti e s go hm
  refine ⟨rfl, rfl, rfl, rfl, rfl, rfl, ?_⟩
  by_cases hg : 0 < (s.graph.selectedGroups.filter
      (fun id => shouldFetchGroupLineReadings s id ti)).length <;>
  cases go <;>
  simp [fetchNeededLineReadings, fetchMeterLineReadings, fetchGroupLineReadings,
    promiseAll, hm, hg]

/-- Witness for C7 at concrete inputs: meter batch [2] fails with `exErr`
over `exStateResolved`, whose meter needs-fetch subset is non-empty. -/
theorem c7_rejection_not_caught_witness :
    (fetchMeterLineReadings [2] exTI (Except.error exErr)).result =
      PromiseState.rejected exErr ∧
    (fetchMeterLineReadings [2] exTI (Except.error exErr)).asyncEvents = [] ∧
    dispatchedActions (fetchMeterLineReadings [2] exTI (Except.error exErr)) =
      [requestMeterLineReadings [2] exTI] ∧
    (fetchGroupLineReadings [2] exTI (Except.error exErr)).result =
      PromiseState.rejected exErr ∧
    (fetchGroupLineReadings [2] exTI (Except.error exErr)).asyncEvents = [] ∧
    dispatchedActions (fetchGroupLineReadings [2] exTI (Except.error exErr)) =
      [requestGroupLineReadings [2] exTI] ∧
    (fetchNeededLineReadings exTI exStateResolved (Except.error exErr)
      (Except.ok exReadings)).result = PromiseState.rejected exErr :=
  c7_rejection_not_caught [2] exTI exErr exStateResolved (Except.ok exReadings)
    (by decide)

/-- Claim C9: every event an orchestrator run emits is a dispatched
notification or an outbound network call; in particular the cache-write
effect reserved to the external reducer never occurs, so the state the
decision logic read is left unchanged by the orchestrator itself. -/
theorem c9_orchestrator_never_writes_cache :
    ∀ (ti : TimeInterval) (s : State) (mo go : Except NetworkError LineReadings),
      ((fetchNeededLineReadings ti s mo go).allEvents.all
        (fun e => isDispatched e || isNetworkGet e)) = true ∧
      ((fetchNeededLineReadings ti s mo go).allEvents.all
        (fun e => !writesCache e)) = true := by
  intro ti s mo go
  by_cases hm : 0 < (s.graph.selectedMeters.filter
      (fun id => shouldFetchMeterLineReadings s id ti)).length <;>
  by_cases hg : 0 < (s.graph.selectedGroups.filter
      (fun id => shouldFetchGroupLineReadings s id ti)).length <;>
  cases mo <;> cases go <;>
  refine ⟨?_, ?_⟩ <;>
  simp [fetchNeededLineReadings, ThunkRun.allEvents, fetchMeterLineReadings,
    fetchGroupLineReadings, isDispatched, isNetworkGet, writesCache, hm, hg]
